import Mathlib

/-!
Verification of the NL-to-SQL agent core: a shallow embedding of
`sql_validator.py` (SQLValidator) and of the generate/gate/limit/execute
retry loop of `agent.py` (NLToSQLAgent.query), together with theorems
about the safety gate, the statement normalizer and the retry
orchestrator.

Modelling conventions:
* Python strings are Lean `String`s; most work happens on `String.data`
  (`List Char`).
* Python whitespace (for `str.strip`, `str.split` and the regex class
  `\s`) is modelled as the ASCII set space, tab, newline, carriage
  return, vertical tab, form feed.
* `str.upper` is modelled with `Char.toUpper` (ASCII case folding), and
  the regex word class `\w` as ASCII alphanumerics plus underscore.
* The external model call and the database driver are oracles passed in
  as parameters (`Except String α` values: `Except.error m` models a
  raised exception whose `str` is `m`).
* The few regex operations of the source are compiled by hand to
  first-order scanning functions, each documented with the regex it
  implements; all definitions are structurally recursive so that they
  evaluate by `decide` / `rfl`.
-/

/-- Python whitespace test restricted to ASCII: the characters matched by
`str.strip()`, `str.split()` and the regex class `\s`. -/
def pyIsSpace (c : Char) : Bool :=
  c == ' ' || c == '\t' || c == '\n' || c == '\r' || c == '\x0b' || c == '\x0c'

/-- Python `str.strip()` on a character list: drop whitespace from both ends. -/
def pyStrip (l : List Char) : List Char :=
  ((l.dropWhile pyIsSpace).reverse.dropWhile pyIsSpace).reverse

/-- Python `str.strip()` at the `String` level. -/
def pyStripS (s : String) : String :=
  String.mk (pyStrip s.data)

/-- Python `str.rstrip(rstr)` with `rstr` a single semicolon, as used in
`SQLValidator.add_limit_if_missing` (line 111 of `sql_validator.py`). -/
def rstripSemi (l : List Char) : List Char :=
  (l.reverse.dropWhile (fun c => c == ';')).reverse

/-- Regex word character `\w` (ASCII): letters, digits, underscore. -/
def isWordChar (c : Char) : Bool :=
  c.isAlphanum || c == '_'

/-- Scanner for `re.sub(r'--[^\n]*', '', sql)` from
`SQLValidator._remove_comments` (line 85): the flag records whether we are
inside a line comment; a line comment runs up to, but not including, the
next newline. -/
def rlcGo : Bool → List Char → List Char
  | _, [] => []
  | true, c :: rest => if c == '\n' then c :: rlcGo false rest else rlcGo true rest
  | false, '-' :: '-' :: rest => rlcGo true rest
  | false, c :: rest => c :: rlcGo false rest

/-- Removal of `--` line comments (first substitution of `_remove_comments`). -/
def removeLineComments (l : List Char) : List Char :=
  rlcGo false l

/-- Scanner for `re.sub(r'/\*.*?\*/', '', sql, flags=re.DOTALL)` from
`SQLValidator._remove_comments` (line 88). The state `some buf` means we
are inside a potential block comment whose text so far is `buf` reversed;
if the input ends before a closing `*/` the regex does not match, so the
buffered text is emitted unchanged. Non-greedy matching means the first
following `*/` closes the comment. -/
def rbcGo : Option (List Char) → List Char → List Char
  | none, [] => []
  | none, '/' :: '*' :: rest => rbcGo (some ['*', '/']) rest
  | none, c :: rest => c :: rbcGo none rest
  | some buf, [] => buf.reverse
  | some _, '*' :: '/' :: rest => rbcGo none rest
  | some buf, c :: rest => rbcGo (some (c :: buf)) rest

/-- Removal of `/* ... */` block comments (second substitution of
`_remove_comments`). -/
def removeBlockComments (l : List Char) : List Char :=
  rbcGo none l

/-- `SQLValidator._remove_comments` (lines 82-90): line comments are removed
first, then block comments. -/
def _remove_comments (l : List Char) : List Char :=
  removeBlockComments (removeLineComments l)

/-- Python substring test `needle in hay` on character lists. -/
def containsSub (needle : List Char) : List Char → Bool
  | [] => needle.isPrefixOf []
  | c :: rest => needle.isPrefixOf (c :: rest) || containsSub needle rest

/-- One position of the search for `\bKW\b`: the keyword matches here and the
character following it (if any) is not a word character. -/
def hasWordAt (kw l : List Char) : Bool :=
  kw.isPrefixOf l &&
    (match l.drop kw.length with
     | [] => true
     | c :: _ => !isWordChar c)

/-- Scanner for `re.search(r'\b' + kw + r'\b', text)`: `prevWord` records
whether the previous character was a word character (there is a word
boundary before the current position exactly when it was not, since every
keyword starts with a letter). -/
def hasWordInAux (kw : List Char) : Bool → List Char → Bool
  | _, [] => false
  | prevWord, c :: rest =>
      (!prevWord && hasWordAt kw (c :: rest)) || hasWordInAux kw (isWordChar c) rest

/-- Whole-word (word-boundary) occurrence of `kw` in `l`. -/
def hasWordIn (kw l : List Char) : Bool :=
  hasWordInAux kw false l

/-- `SQLValidator.DANGEROUS_KEYWORDS` (lines 13-17), in source order. -/
def DANGEROUS_KEYWORDS : List String :=
  ["DROP", "DELETE", "TRUNCATE", "INSERT", "UPDATE",
   "ALTER", "CREATE", "GRANT", "REVOKE", "EXECUTE",
   "EXEC", "CALL", "REPLACE"]

/-- Test whether a list starts with `--`. -/
def startsDashDash : List Char → Bool
  | '-' :: '-' :: _ => true
  | _ => false

/-- Test whether a `;` occurs before the next newline (used to finish the
matches of the second and third injection patterns, whose `.` does not
cross newlines). -/
def semiBeforeNewline : List Char → Bool
  | [] => false
  | ';' :: _ => true
  | '\n' :: _ => false
  | _ :: rest => semiBeforeNewline rest

/-- Search for the first `*/` on the current line; returns the remainder
after it, or `none` if a newline or the end of input comes first. -/
def afterBlockClose : List Char → Option (List Char)
  | [] => none
  | '\n' :: _ => none
  | '*' :: '/' :: rest => some rest
  | _ :: rest => afterBlockClose rest

/-- Scanner for `re.search(r';\s*--', text)` (first injection pattern,
line 70 of `sql_validator.py`): a semicolon, optional whitespace, then a
line comment opener. -/
def injSemicolonThenComment : List Char → Bool
  | [] => false
  | ';' :: rest => startsDashDash (rest.dropWhile pyIsSpace) || injSemicolonThenComment rest
  | _ :: rest => injSemicolonThenComment rest

/-- Scanner for `re.search(r'--\s*[^\n]*;\s*', text)` (second injection
pattern, line 71): after `--`, a whitespace run (which may cross
newlines), then a semicolon before the next newline. The greedy
backtracking match exists exactly when, after skipping the maximal
whitespace run, a semicolon occurs before a newline. -/
def injCommentWithSemicolon : List Char → Bool
  | [] => false
  | '-' :: rest =>
      (match rest with
       | '-' :: rest2 => semiBeforeNewline (rest2.dropWhile pyIsSpace)
       | _ => false) || injCommentWithSemicolon rest
  | _ :: rest => injCommentWithSemicolon rest

/-- Scanner for `re.search(r'\/\*.*\*\/.*;\s*', text)` (third injection
pattern, line 72; no DOTALL, so `.` stays on one line): `/*`, then a
closing `*/` on the same line, then a semicolon on the same line. -/
def injBlockCommentThenSemicolon : List Char → Bool
  | [] => false
  | '/' :: rest =>
      (match rest with
       | '*' :: rest2 =>
           (match afterBlockClose rest2 with
            | some rem => semiBeforeNewline rem
            | none => false)
       | _ => false) || injBlockCommentThenSemicolon rest
  | _ :: rest => injBlockCommentThenSemicolon rest

/-- The loop over `injection_patterns` (lines 69-77 of `sql_validator.py`).
Note that in the source the patterns are searched in `sql_clean`, the
comment-stripped text. -/
def hasInjectionPattern (l : List Char) : Bool :=
  injSemicolonThenComment l || injCommentWithSemicolon l || injBlockCommentThenSemicolon l

/-- `SQLValidator.is_safe_query` (lines 31-79 of `sql_validator.py`):
empty check on the original text, comment removal, case folding,
dangerous-keyword scan (word boundaries, source list order), SELECT
prefix check, semicolon count, then the injection patterns, which the
source applies to the comment-stripped `sql_clean`. -/
def is_safe_query (sql : String) : Bool × String :=
  if pyStrip sql.data = [] then (false, "Empty query")
  else
    let sql_clean := _remove_comments sql.data
    let sql_upper := sql_clean.map Char.toUpper
    match DANGEROUS_KEYWORDS.find? (fun kw => hasWordIn kw.data sql_upper) with
    | some kw => (false, "Dangerous keyword detected: " ++ kw)
    | none =>
      if !("SELECT".data.isPrefixOf (pyStrip sql_upper)) then
        (false, "Query must start with SELECT")
      else if 1 < sql_clean.count ';' then
        (false, "Multiple statements not allowed")
      else if hasInjectionPattern sql_clean then
        (false, "Potential SQL injection pattern detected")
      else
        (true, "Query is safe")

/-- Scanner for `re.sub(r'```sql\s*', '', sql)` (line 130 of
`sql_validator.py`): each occurrence of the fence opener and the
whitespace run after it is removed. The fuel argument (initially the
length of the list) only makes the recursion structural; a step always
consumes at least one character. -/
def sfsFuel : Nat → List Char → List Char
  | 0, l => l
  | _ + 1, [] => []
  | fuel + 1, '`' :: '`' :: '`' :: 's' :: 'q' :: 'l' :: rest =>
      sfsFuel fuel (rest.dropWhile pyIsSpace)
  | fuel + 1, c :: rest => c :: sfsFuel fuel rest

/-- Removal of markdown fences opened with three backticks and `sql`. -/
def subFenceSql (l : List Char) : List Char :=
  sfsFuel l.length l

/-- Scanner for `re.sub(r'```\s*', '', sql)` (line 131). -/
def sfbFuel : Nat → List Char → List Char
  | 0, l => l
  | _ + 1, [] => []
  | fuel + 1, '`' :: '`' :: '`' :: rest =>
      sfbFuel fuel (rest.dropWhile pyIsSpace)
  | fuel + 1, c :: rest => c :: sfbFuel fuel rest

/-- Removal of bare three-backtick markdown fences. -/
def subFenceBare (l : List Char) : List Char :=
  sfbFuel l.length l

/-- Python `str.split()`: split on whitespace runs, discarding empty
pieces. -/
def splitWs : List Char → List (List Char)
  | [] => []
  | c :: rest =>
      if pyIsSpace c then splitWs rest
      else
        match rest, splitWs rest with
        | d :: _, t :: ts => if pyIsSpace d then [c] :: t :: ts else (c :: t) :: ts
        | _, r => [c] :: r

/-- Python `' '.join(tokens)`. -/
def intercalateSpace : List (List Char) → List Char
  | [] => []
  | [t] => t
  | t :: ts => t ++ ' ' :: intercalateSpace ts

/-- Python `sql.endswith(';')` on a character list. -/
def endsWithSemi (l : List Char) : Bool :=
  l.reverse.head? == some ';'

/-- `SQLValidator.clean_sql` (lines 118-140): strip markdown fences,
collapse whitespace runs (`' '.join(sql.split())`), then append a
semicolon if the result does not already end with one. -/
def clean_sql (sql : String) : String :=
  let s1 := subFenceSql sql.data
  let s2 := subFenceBare s1
  let s3 := intercalateSpace (splitWs s2)
  if endsWithSemi s3 then String.mk s3 else String.mk (s3 ++ [';'])

/-- `SQLValidator.add_limit_if_missing` (lines 92-116): if `LIMIT` occurs
as a substring of the upper-cased text the query is returned unchanged;
otherwise trailing semicolons are stripped, whitespace trimmed, and
` LIMIT <default_limit>;` appended. -/
def add_limit_if_missing (sql : String) (default_limit : Nat) : String :=
  let sql_upper := sql.data.map Char.toUpper
  if containsSub "LIMIT".data sql_upper then sql
  else
    String.mk (pyStrip (rstripSemi sql.data) ++ " LIMIT ".data ++ (toString default_limit).data ++ [';'])

/-- `NLToSQLAgent.generate_sql` (lines 106-142 of `agent.py`) with the
model call abstracted as its outcome: on success the returned text is
stripped and passed through `clean_sql`; an exception propagates. -/
def generate_sql (api_response : Except String String) : Except String String :=
  match api_response with
  | Except.error e => Except.error e
  | Except.ok text => Except.ok (clean_sql (pyStripS text))

/-- Message of the `NameError` raised by `NLToSQLAgent.retry_with_error`
(apostrophes around the identifier elided): the dictionary literal
`{role:"user", content: prompt}` on lines 93-96 of `agent.py` reads the
undefined names `role` and `content`. -/
def nameErrorMsg : String :=
  "NameError: name role is not defined"

/-- `NLToSQLAgent.retry_with_error` (lines 70-104 of `agent.py`). Its body
evaluates the dictionary literal `{role:"user", content: prompt}` while
building the arguments of the model call; `role` and `content` are
undefined names, so a `NameError` is raised before the external model is
contacted, caught by the inner handler and re-raised. (Even if it got
further, `SQLValidator(sql).clean(sql)` on line 100 calls a constructor
that takes no arguments and a method that does not exist.) The function
therefore fails identically for every question, failed SQL, error message
and attempt index, and never consults the generator, which is why it
takes no generator oracle here. -/
def retry_with_error (natural_query : String) (failed_sql : Option String)
    (error_message : Option String) (attempt : Nat) : Except String String :=
  Except.error nameErrorMsg

/-- Result dictionary of `NLToSQLAgent.query` (lines 179-251 of
`agent.py`): either the success record (sql, rows, column names, attempt
index, row count) or a failure record (error message and the last SQL
tried, possibly absent). -/
inductive QueryResult (Row : Type) where
  | success (sql : String) (results : List Row) (column_names : List String)
      (attempt : Nat) (row_count : Nat)
  | failure (error : String) (sql : Option String)

/-- The retry loop of `NLToSQLAgent.query` (lines 198-251 of `agent.py`).
`fuel` is the number of remaining loop iterations (`query` starts it at
`max_retries`, matching `range(1, max_retries + 1)`); `attempt` is the
Python loop variable; `sqlv` and `errv` are the current values of the
`sql` and `error` variables. Attempt 1 generates via `generate_sql`;
later attempts call `retry_with_error`. An exception from generation or
execution is caught: on the last attempt the exhausted failure dictionary
is returned, otherwise the loop continues with the error recorded. An
unsafe classification returns immediately. `dbExec` is the database
oracle for `execute_sql`. -/
def queryLoop {Row : Type} (natural_query : String) (gen1 : Except String String)
    (dbExec : String → Except String (List Row × List String))
    (max_retries : Nat) (default_limit : Nat) :
    Nat → Nat → Option String → Option String → QueryResult Row
  | 0, _, sqlv, _ => QueryResult.failure "Unknown error occurred" sqlv
  | fuel + 1, attempt, sqlv, errv =>
    match (if attempt = 1 then generate_sql gen1
           else retry_with_error natural_query sqlv errv attempt) with
    | Except.error e =>
      if attempt = max_retries then
        QueryResult.failure
          ("Failed after " ++ toString max_retries ++ " attempts. Last error: " ++ e) sqlv
      else
        queryLoop natural_query gen1 dbExec max_retries default_limit fuel (attempt + 1) sqlv (some e)
    | Except.ok sqlGen =>
      if (is_safe_query sqlGen).1 then
        match dbExec (add_limit_if_missing sqlGen default_limit) with
        | Except.ok (results, column_names) =>
          QueryResult.success (add_limit_if_missing sqlGen default_limit)
            results column_names attempt results.length
        | Except.error e =>
          if attempt = max_retries then
            QueryResult.failure
              ("Failed after " ++ toString max_retries ++ " attempts. Last error: " ++ e)
              (some (add_limit_if_missing sqlGen default_limit))
          else
            queryLoop natural_query gen1 dbExec max_retries default_limit fuel (attempt + 1)
              (some (add_limit_if_missing sqlGen default_limit)) (some e)
      else
        QueryResult.failure ("‼️Unsafe SQL detected: " ++ (is_safe_query sqlGen).2) (some sqlGen)

/-- `NLToSQLAgent.query`: run the loop from attempt 1 with `sql = None`
and `error = None`. -/
def query {Row : Type} (natural_query : String) (gen1 : Except String String)
    (dbExec : String → Except String (List Row × List String))
    (max_retries : Nat) (default_limit : Nat) : QueryResult Row :=
  queryLoop natural_query gen1 dbExec max_retries default_limit max_retries 1 none none

/-- Whether a query result is the success record. -/
def isSuccess {Row : Type} : QueryResult Row → Bool
  | QueryResult.success _ _ _ _ _ => true
  | QueryResult.failure _ _ => false

/-- The fixed prefix of the exhausted-attempts failure message for a
budget of `N` attempts. -/
def exhaustedPrefix (N : Nat) : String :=
  "Failed after " ++ toString N ++ " attempts. Last error: "

/-- Whether a query result is the exhausted-attempts failure for a budget
of `N` attempts. -/
def isExhaustedFailure {Row : Type} (N : Nat) : QueryResult Row → Bool
  | QueryResult.failure e _ => (exhaustedPrefix N).data.isPrefixOf e.data
  | QueryResult.success _ _ _ _ _ => false

/-- The first attempt of a session ends in a generation failure or in an
execution failure: either the generation oracle errors (and the `sql`
variable is still `None`), or it yields SQL that passes the safety gate
and the executor errors on the limit-enforced statement (the `sql`
variable then holds that statement). `e` is the error message and `s` the
value of the `sql` variable after the attempt. -/
def FirstAttemptFails {Row : Type} (gen1 : Except String String)
    (dbExec : String → Except String (List Row × List String))
    (default_limit : Nat) (e : String) (s : Option String) : Prop :=
  (generate_sql gen1 = Except.error e ∧ s = none) ∨
  (∃ q, generate_sql gen1 = Except.ok q ∧ (is_safe_query q).1 = true ∧
     dbExec (add_limit_if_missing q default_limit) = Except.error e ∧
     s = some (add_limit_if_missing q default_limit))

/-- Whether a gate message is the dangerous-keyword rejection. -/
def isKwRejectMsg (m : String) : Bool :=
  "Dangerous keyword detected: ".data.isPrefixOf m.data

/-- Whether a string ends in exactly one semicolon. -/
def endsInExactlyOneSemicolon (s : String) : Bool :=
  match s.data.reverse with
  | ';' :: ';' :: _ => false
  | ';' :: _ => true
  | _ => false

/-! Helper lemmas. -/

/-- A list is a Boolean prefix of itself followed by anything. -/
theorem isPrefixOf_append_self (l m : List Char) : l.isPrefixOf (l ++ m) = true := by
  induction l with
  | nil => simp [List.isPrefixOf]
  | cons a t ih => simp [List.isPrefixOf, ih]

/-- Substring containment is preserved by prepending text. -/
theorem containsSub_append_left (n l₂ : List Char) (h : containsSub n l₂ = true) :
    ∀ l₁, containsSub n (l₁ ++ l₂) = true := by
  intro l₁
  induction l₁ with
  | nil => simpa using h
  | cons c t ih => simp [containsSub, ih]

/-- The appended text ` LIMIT <n>;` makes `LIMIT` a substring. -/
theorem containsSub_limit_marker (X : List Char) :
    containsSub "LIMIT".data (' ' :: 'L' :: 'I' :: 'M' :: 'I' :: 'T' :: ' ' :: X) = true := by
  have hL : "LIMIT".data = ['L', 'I', 'M', 'I', 'T'] := rfl
  simp [containsSub, hL, List.isPrefixOf, isPrefixOf_append_self]

/-- If the upper-cased text already contains LIMIT as a substring,
`add_limit_if_missing` returns its input unchanged. -/
theorem add_limit_contains (s : String) (d : Nat)
    (h : containsSub "LIMIT".data (s.data.map Char.toUpper) = true) :
    add_limit_if_missing s d = s := by
  simp [add_limit_if_missing, h]

/-- From attempt 2 on, every generation call is `retry_with_error`, which
fails unconditionally, so the loop runs out its budget and produces the
exhausted-attempts failure carrying the retry error message and the
current value of the `sql` variable. -/
theorem retry_exhausts {Row : Type} (q : String) (gen1 : Except String String)
    (dbExec : String → Except String (List Row × List String)) (N d : Nat) :
    ∀ (fuel attempt : Nat) (sqlv errv : Option String),
      2 ≤ attempt → attempt + fuel = N + 1 → 1 ≤ fuel →
      queryLoop q gen1 dbExec N d fuel attempt sqlv errv =
        QueryResult.failure
          ("Failed after " ++ toString N ++ " attempts. Last error: " ++ nameErrorMsg) sqlv := by
  intro fuel
  induction fuel with
  | zero => intro attempt sqlv errv _ _ h1; omega
  | succ f ih =>
    intro attempt sqlv errv h2 hsum _
    have hne1 : ¬ attempt = 1 := by omega
    simp only [queryLoop, if_neg hne1, retry_with_error]
    by_cases hN : attempt = N
    · rw [if_pos hN]
    · rw [if_neg hN]
      exact ih (attempt + 1) sqlv (some nameErrorMsg) (by omega) (by omega) (by omega)

/-- If the first attempt of a session fails (generation error, or safe
SQL whose execution errors), every later attempt fails with the retry
error, so the loop exhausts its budget: the result is the exhausted
failure whose message carries the last error (the first error when the
budget is one attempt, the retry error otherwise) and the last SQL
tried. -/
theorem first_fail_exhausts {Row : Type} (q : String) (gen1 : Except String String)
    (dbExec : String → Except String (List Row × List String)) (N d : Nat) (e : String)
    (s : Option String) (hN : 1 ≤ N) (h : FirstAttemptFails gen1 dbExec d e s) :
    query q gen1 dbExec N d =
      QueryResult.failure
        ("Failed after " ++ toString N ++ " attempts. Last error: " ++
          (if N = 1 then e else nameErrorMsg)) s := by
  obtain ⟨m, rfl⟩ : ∃ m, N = m + 1 := ⟨N - 1, by omega⟩
  unfold query
  rcases h with ⟨hgen, rfl⟩ | ⟨qs, hgen, hsafe, hex, rfl⟩
  · simp only [queryLoop, if_true, hgen]
    cases m with
    | zero => simp
    | succ m' =>
      have h1 : ¬ (1 : Nat) = m' + 1 + 1 := by omega
      have h2 : ¬ (m' + 1 + 1 = 1) := by omega
      rw [if_neg h1, if_neg h2,
        retry_exhausts q gen1 dbExec (m' + 1 + 1) d (m' + 1) 2 none (some e)
          (by omega) (by omega) (by omega)]
  · simp only [queryLoop, if_true, hgen]
    rw [if_pos hsafe]
    simp only [hex]
    cases m with
    | zero => simp
    | succ m' =>
      have h1 : ¬ (1 : Nat) = m' + 1 + 1 := by omega
      have h2 : ¬ (m' + 1 + 1 = 1) := by omega
      rw [if_neg h1, if_neg h2,
        retry_exhausts q gen1 dbExec (m' + 1 + 1) d (m' + 1) 2
          (some (add_limit_if_missing qs d)) (some e) (by omega) (by omega) (by omega)]

/-! Claim theorems. -/

/-- C4 counterexample: the input `SELECT 1 -- ;` matches the second
injection pattern (a line comment containing a semicolon) in its original
comment-retained text, yet `is_safe_query` classifies it safe, because
the source searches the patterns in `sql_clean`, from which the comment
has already been removed. -/
theorem C4_counterexample :
    hasInjectionPattern "SELECT 1 -- ;".data = true ∧
    is_safe_query "SELECT 1 -- ;" = (true, "Query is safe") := by
  decide

/-- C4 (amended): the injection-pattern checks of `is_safe_query` are
evaluated over the comment-stripped text, not the original: whenever the
comment-stripped text matches no injection pattern, the classification is
never the injection rejection, regardless of what the original text
matched. -/
theorem C4_injection_checks_on_stripped_text :
    ∀ s : String, hasInjectionPattern (_remove_comments s.data) = false →
      ((is_safe_query s).2 == "Potential SQL injection pattern detected") = false := by
  intro s h
  by_cases he : pyStrip s.data = []
  · simp only [is_safe_query, if_pos he]
    decide
  · simp only [is_safe_query, if_neg he]
    rcases hfind : DANGEROUS_KEYWORDS.find?
        (fun kw => hasWordIn kw.data ((_remove_comments s.data).map Char.toUpper)) with _ | kw
    · simp only [hfind, h, Bool.false_eq_true, if_false]
      split
      · decide
      · split
        · decide
        · decide
    · simp only [hfind]
      rw [beq_eq_false_iff_ne]
      intro heq
      have hd := congrArg String.data heq
      rw [String.data_append] at hd
      have h1 : "Dangerous keyword detected: ".data
          = 'D' :: "angerous keyword detected: ".data := rfl
      have h2 : "Potential SQL injection pattern detected".data
          = 'P' :: "otential SQL injection pattern detected".data := rfl
      rw [h1, List.cons_append, h2] at hd
      injection hd with hh _
      exact absurd hh (by decide)

/-- C4 witness: on `SELECT 1 -- ;` the comment-stripped text matches no
injection pattern, and the classification is not the injection
rejection. -/
theorem C4_witness :
    hasInjectionPattern (_remove_comments "SELECT 1 -- ;".data) = false ∧
    ((is_safe_query "SELECT 1 -- ;").2 == "Potential SQL injection pattern detected") = false :=
  ⟨by decide, C4_injection_checks_on_stripped_text "SELECT 1 -- ;" (by decide)⟩

/-- C5 counterexample: on `SELECT * FROM customers; DROP TABLE customers;`
the gate does classify unsafe, but the reason is the dangerous-keyword
rejection for `DROP` (checked first, lines 52-56 of `sql_validator.py`),
not the multiple-statements rejection claimed by the specification. -/
theorem C5_counterexample :
    ((is_safe_query "SELECT * FROM customers; DROP TABLE customers;").2
        == "Multiple statements not allowed") = false ∧
    is_safe_query "SELECT * FROM customers; DROP TABLE customers;"
      = (false, "Dangerous keyword detected: DROP") := by
  decide

/-- C5 (amended): when the generator returns
`SELECT * FROM customers; DROP TABLE customers;`, the gate classifies it
unsafe with reason `Dangerous keyword detected: DROP` (the keyword scan
precedes the semicolon count), and the session ends at once with the
unsafe failure: the result is the same for every executor oracle, every
remaining budget and every attempt state, so no execution and no retry
happens. -/
theorem C5_unsafe_keyword_reason_no_execution :
    ∀ (Row : Type) (q : String) (dbExec : String → Except String (List Row × List String))
      (N d fuel : Nat) (sqlv errv : Option String),
      queryLoop q (Except.ok "SELECT * FROM customers; DROP TABLE customers;") dbExec N d
          (fuel + 1) 1 sqlv errv =
        QueryResult.failure "‼️Unsafe SQL detected: Dangerous keyword detected: DROP"
          (some "SELECT * FROM customers; DROP TABLE customers;") := by
  intro Row q dbExec N d fuel sqlv errv
  have hg : generate_sql (Except.ok "SELECT * FROM customers; DROP TABLE customers;")
      = Except.ok "SELECT * FROM customers; DROP TABLE customers;" := rfl
  simp only [queryLoop, if_true, hg]
  rw [if_neg (by decide :
    ¬ ((is_safe_query "SELECT * FROM customers; DROP TABLE customers;").1 = true))]
  rw [show ("‼️Unsafe SQL detected: " ++
      (is_safe_query "SELECT * FROM customers; DROP TABLE customers;").2)
      = "‼️Unsafe SQL detected: Dangerous keyword detected: DROP" from by decide]

/-- C6: any input whose comment-stripped, upper-cased text contains a
denylisted keyword as a whole word is classified unsafe, and when no
denylisted keyword occurs as a whole word the classification message is
never the dangerous-keyword rejection, so an occurrence only as a proper
substring of a longer word (such as DROPPED) cannot by itself trigger
it. -/
theorem C6_dangerous_keyword_word_boundary :
    ∀ s : String,
      ((∃ kw ∈ DANGEROUS_KEYWORDS,
          hasWordIn kw.data ((_remove_comments s.data).map Char.toUpper) = true) →
        (is_safe_query s).1 = false) ∧
      ((∀ kw ∈ DANGEROUS_KEYWORDS,
          hasWordIn kw.data ((_remove_comments s.data).map Char.toUpper) = false) →
        isKwRejectMsg (is_safe_query s).2 = false) := by
  intro s
  constructor
  · rintro ⟨kw, hmem, hkw⟩
    by_cases he : pyStrip s.data = []
    · simp [is_safe_query, he]
    · simp only [is_safe_query, if_neg he]
      have hsome : (DANGEROUS_KEYWORDS.find?
          (fun kw => hasWordIn kw.data ((_remove_comments s.data).map Char.toUpper))).isSome := by
        rw [List.find?_isSome]
        exact ⟨kw, hmem, hkw⟩
      obtain ⟨kw2, hfind⟩ := Option.isSome_iff_exists.mp hsome
      simp only [hfind]
  · intro hall
    by_cases he : pyStrip s.data = []
    · simp only [is_safe_query, if_pos he]
      decide
    · simp only [is_safe_query, if_neg he]
      have hnone : DANGEROUS_KEYWORDS.find?
          (fun kw => hasWordIn kw.data ((_remove_comments s.data).map Char.toUpper)) = none := by
        rw [List.find?_eq_none]
        intro k hk
        simp [hall k hk]
      simp only [hnone]
      split
      · decide
      · split
        · decide
        · split
          · decide
          · decide

/-- C6 witness: `DrOp` as a whole word (any casing) is rejected, while
`dropped`, which contains DROP only as a proper substring, does not
trigger the keyword rejection. -/
theorem C6_witness :
    (is_safe_query "SELECT x FROM t WHERE DrOp = 1").1 = false ∧
    isKwRejectMsg (is_safe_query "SELECT dropped FROM t;").2 = false :=
  ⟨(C6_dangerous_keyword_word_boundary "SELECT x FROM t WHERE DrOp = 1").1
      ⟨"DROP", by decide, by decide⟩,
   (C6_dangerous_keyword_word_boundary "SELECT dropped FROM t;").2 (by decide)⟩

/-- C7: `add_limit_if_missing` is idempotent for every SQL string and
every default limit, and when the upper-cased input already contains the
substring LIMIT the input is returned unchanged. -/
theorem C7_enforce_limit_idempotent :
    ∀ (s : String) (d : Nat),
      add_limit_if_missing (add_limit_if_missing s d) d = add_limit_if_missing s d ∧
      (containsSub "LIMIT".data (s.data.map Char.toUpper) = true →
        add_limit_if_missing s d = s) := by
  intro s d
  by_cases h : containsSub "LIMIT".data (s.data.map Char.toUpper) = true
  · have hs : add_limit_if_missing s d = s := by
      simp [add_limit_if_missing, h]
    exact ⟨by rw [hs, hs], fun _ => hs⟩
  · have hs : add_limit_if_missing s d =
        String.mk (pyStrip (rstripSemi s.data) ++ " LIMIT ".data
          ++ (toString d).data ++ [';']) := by
      simp [add_limit_if_missing, h]
    refine ⟨?_, fun hc => absurd hc h⟩
    rw [hs]
    apply add_limit_contains
    show containsSub "LIMIT".data
      ((pyStrip (rstripSemi s.data) ++ " LIMIT ".data
        ++ (toString d).data ++ [';']).map Char.toUpper) = true
    have hassoc : pyStrip (rstripSemi s.data) ++ " LIMIT ".data ++ (toString d).data ++ [';']
        = pyStrip (rstripSemi s.data) ++ (" LIMIT ".data ++ ((toString d).data ++ [';'])) := by
      simp [List.append_assoc]
    rw [hassoc, List.map_append Char.toUpper (pyStrip (rstripSemi s.data))]
    apply containsSub_append_left
    show containsSub "LIMIT".data
      (' ' :: 'L' :: 'I' :: 'M' :: 'I' :: 'T' :: ' '
        :: (((toString d).data ++ [';']).map Char.toUpper)) = true
    exact containsSub_limit_marker _

/-- C7 witness: concrete idempotence, with an input already carrying a
LIMIT clause returned unchanged. -/
theorem C7_witness :
    add_limit_if_missing (add_limit_if_missing "SELECT a FROM t LIMIT 5;" 9) 9
      = add_limit_if_missing "SELECT a FROM t LIMIT 5;" 9 ∧
    add_limit_if_missing "SELECT a FROM t LIMIT 5;" 9 = "SELECT a FROM t LIMIT 5;" :=
  ⟨(C7_enforce_limit_idempotent "SELECT a FROM t LIMIT 5;" 9).1,
   (C7_enforce_limit_idempotent "SELECT a FROM t LIMIT 5;" 9).2 (by decide)⟩

/-- C8 counterexample: `clean_sql` only appends a semicolon when one is
missing; it never collapses repeated trailing semicolons, so on
`SELECT 1;;` the output ends in two terminators, not exactly one. -/
theorem C8_counterexample :
    clean_sql "SELECT 1;;" = "SELECT 1;;" ∧
    endsInExactlyOneSemicolon (clean_sql "SELECT 1;;") = false := by
  decide

/-- C8 (amended): for every raw input, `clean_sql` returns a string that
ends in at least one semicolon (one is appended exactly when the cleaned
text does not already end in one; pre-existing repeated trailing
semicolons are preserved). -/
theorem C8_clean_sql_trailing_semicolon :
    ∀ s : String, endsWithSemi (clean_sql s).data = true := by
  intro s
  simp only [clean_sql]
  by_cases h : endsWithSemi (intercalateSpace (splitWs (subFenceBare (subFenceSql s.data)))) = true
  · rw [if_pos h]
    exact h
  · rw [if_neg h]
    show endsWithSemi (intercalateSpace (splitWs (subFenceBare (subFenceSql s.data))) ++ [';']) = true
    simp [endsWithSemi, List.reverse_append]

/-- C10: whenever LIMIT occurs as a substring of the upper-cased input,
even inside a longer identifier, `add_limit_if_missing` returns the input
unchanged, so no row-limiting clause is appended before execution. -/
theorem C10_limit_substring_returns_unchanged :
    ∀ (s : String) (d : Nat),
      containsSub "LIMIT".data (s.data.map Char.toUpper) = true →
      add_limit_if_missing s d = s := by
  intro s d h
  simp [add_limit_if_missing, h]

/-- C10 witness: a query whose only occurrence of LIMIT is inside the
identifier `limited_amount` is passed through unchanged. -/
theorem C10_witness :
    containsSub "LIMIT".data ("SELECT limited_amount FROM t;".data.map Char.toUpper) = true ∧
    add_limit_if_missing "SELECT limited_amount FROM t;" 100
      = "SELECT limited_amount FROM t;" :=
  ⟨by decide,
   C10_limit_substring_returns_unchanged "SELECT limited_amount FROM t;" 100 (by decide)⟩

/-- C1: `retry_with_error` fails identically for every question, failed
SQL, error context and attempt index (its body raises a `NameError` on
the undefined names `role` and `content` while building the request, so
the external generator is never contacted; it is the generation step of
every attempt with index at least 2). Consequently a session whose first
attempt ends in a generation failure or an execution failure can never
reach the success record and always terminates with the
exhausted-attempts failure. -/
theorem C1_retry_with_error_always_fails :
    (∀ (nq : String) (fs em : Option String) (att : Nat),
        retry_with_error nq fs em att = Except.error nameErrorMsg) ∧
    (∀ (Row : Type) (q : String) (gen1 : Except String String)
        (dbExec : String → Except String (List Row × List String)) (N d : Nat)
        (e : String) (s : Option String),
        1 ≤ N → FirstAttemptFails gen1 dbExec d e s →
        isSuccess (query q gen1 dbExec N d) = false ∧
        isExhaustedFailure N (query q gen1 dbExec N d) = true) := by
  constructor
  · intro nq fs em att
    rfl
  · intro Row q gen1 dbExec N d e s hN h
    rw [first_fail_exhausts q gen1 dbExec N d e s hN h]
    refine ⟨rfl, ?_⟩
    show ((exhaustedPrefix N).data.isPrefixOf
      ("Failed after " ++ toString N ++ " attempts. Last error: "
        ++ (if N = 1 then e else nameErrorMsg)).data) = true
    rw [show ("Failed after " ++ toString N ++ " attempts. Last error: "
        ++ (if N = 1 then e else nameErrorMsg))
        = exhaustedPrefix N ++ (if N = 1 then e else nameErrorMsg) from rfl]
    rw [String.data_append]
    exact isPrefixOf_append_self _ _

/-- C1 witness: with a failing first generation and a budget of 2, the
session is never a success and ends with the exhausted-attempts
failure. -/
theorem C1_witness :
    retry_with_error "how many customers" none none 2 = Except.error nameErrorMsg ∧
    isSuccess (@query Unit "how many customers" (Except.error "model call failed")
      (fun _ => Except.error "not reached") 2 100) = false ∧
    isExhaustedFailure 2 (@query Unit "how many customers"
      (Except.error "model call failed") (fun _ => Except.error "not reached") 2 100) = true :=
  ⟨C1_retry_with_error_always_fails.1 "how many customers" none none 2,
   (C1_retry_with_error_always_fails.2 Unit "how many customers"
      (Except.error "model call failed") (fun _ => Except.error "not reached") 2 100
      "model call failed" none (by decide) (Or.inl ⟨rfl, rfl⟩)).1,
   (C1_retry_with_error_always_fails.2 Unit "how many customers"
      (Except.error "model call failed") (fun _ => Except.error "not reached") 2 100
      "model call failed" none (by decide) (Or.inl ⟨rfl, rfl⟩)).2⟩

/-- C2: at any attempt index, if the generation step of that attempt
yields SQL that the safety gate classifies unsafe, the loop returns at
once the failure embedding the gate reason together with that SQL; the
result is the same for every executor oracle, every remaining budget
`fuel` and every configured maximum, so the executor is never invoked for
that SQL and no further generation attempt is made. -/
theorem C2_unsafe_is_immediately_terminal :
    ∀ (Row : Type) (q : String) (gen1 : Except String String)
      (dbExec : String → Except String (List Row × List String))
      (N d fuel attempt : Nat) (sqlv errv : Option String) (s : String),
      (if attempt = 1 then generate_sql gen1 else retry_with_error q sqlv errv attempt)
        = Except.ok s →
      (is_safe_query s).1 = false →
      queryLoop q gen1 dbExec N d (fuel + 1) attempt sqlv errv =
        QueryResult.failure ("‼️Unsafe SQL detected: " ++ (is_safe_query s).2) (some s) := by
  intro Row q gen1 dbExec N d fuel attempt sqlv errv s hgen hgate
  simp only [queryLoop, hgen]
  rw [if_neg (by simp [hgate])]

/-- C2 witness: a generated `DROP TABLE customers` statement ends the
session immediately with the unsafe failure, for a concrete executor that
is never consulted. -/
theorem C2_witness :
    @queryLoop Unit "remove customers" (Except.ok "DROP TABLE customers")
        (fun _ => Except.error "not reached") 3 100 3 1 none none =
      QueryResult.failure "‼️Unsafe SQL detected: Dangerous keyword detected: DROP"
        (some "DROP TABLE customers;") := by
  have h := C2_unsafe_is_immediately_terminal Unit "remove customers"
    (Except.ok "DROP TABLE customers") (fun _ => Except.error "not reached")
    3 100 2 1 none none "DROP TABLE customers;" rfl (by decide)
  rw [h]
  rw [show ("‼️Unsafe SQL detected: " ++ (is_safe_query "DROP TABLE customers;").2)
      = "‼️Unsafe SQL detected: Dangerous keyword detected: DROP" from by decide]

/-- C3: for every budget `N` of at least one attempt, a session whose
first attempt fails (generation failure or execution failure; every later
attempt then fails through `retry_with_error`, so all `N` attempts end in
failure) returns, as a value, exactly one failure record whose message is
`Failed after N attempts. Last error: <last message>` — the last message
being the first error when `N = 1` and the retry error of the `N`-th
attempt otherwise — together with the last SQL tried. -/
theorem C3_exhausted_failure_message :
    ∀ (Row : Type) (q : String) (gen1 : Except String String)
      (dbExec : String → Except String (List Row × List String)) (N d : Nat)
      (e : String) (s : Option String),
      1 ≤ N → FirstAttemptFails gen1 dbExec d e s →
      query q gen1 dbExec N d =
        QueryResult.failure
          ("Failed after " ++ toString N ++ " attempts. Last error: "
            ++ (if N = 1 then e else nameErrorMsg)) s :=
  fun Row q gen1 dbExec N d e s hN h => first_fail_exhausts q gen1 dbExec N d e s hN h

/-- C3 witness: a safe first statement whose execution fails, with a
budget of two attempts, ends with the exhausted-attempts failure carrying
the second (retry) error and the limit-enforced SQL of the first
attempt. -/
theorem C3_witness :
    @query Unit "show orders" (Except.ok "SELECT * FROM orders")
        (fun _ => Except.error "relation orders does not exist") 2 100 =
      QueryResult.failure ("Failed after 2 attempts. Last error: " ++ nameErrorMsg)
        (some "SELECT * FROM orders LIMIT 100;") := by
  have h := C3_exhausted_failure_message Unit "show orders" (Except.ok "SELECT * FROM orders")
    (fun _ => Except.error "relation orders does not exist") 2 100
    "relation orders does not exist" (some "SELECT * FROM orders LIMIT 100;")
    (by decide)
    (Or.inr ⟨"SELECT * FROM orders;", rfl, by decide, rfl, by decide⟩)
  exact h

/-- C9: when the generator returns `SELECT * FROM orders` (no limit
clause) and the default limit is 100, the statement handed to the
executor is `SELECT * FROM orders LIMIT 100;`, and a successful execution
of exactly that statement yields the success record carrying it. -/
theorem C9_default_limit_applied :
    ∀ (Row : Type) (q : String)
      (dbExec : String → Except String (List Row × List String))
      (N fuel : Nat) (rows : List Row) (cols : List String),
      add_limit_if_missing (clean_sql (pyStripS "SELECT * FROM orders")) 100 =
        "SELECT * FROM orders LIMIT 100;" ∧
      (dbExec "SELECT * FROM orders LIMIT 100;" = Except.ok (rows, cols) →
        queryLoop q (Except.ok "SELECT * FROM orders") dbExec N 100 (fuel + 1) 1 none none =
          QueryResult.success "SELECT * FROM orders LIMIT 100;" rows cols 1 rows.length) := by
  intro Row q dbExec N fuel rows cols
  constructor
  · decide
  · intro hdb
    have hg : generate_sql (Except.ok "SELECT * FROM orders")
        = Except.ok "SELECT * FROM orders;" := rfl
    simp only [queryLoop, if_true, hg]
    rw [if_pos (by decide : (is_safe_query "SELECT * FROM orders;").1 = true)]
    rw [show add_limit_if_missing "SELECT * FROM orders;" 100
        = "SELECT * FROM orders LIMIT 100;" from by decide]
    rw [hdb]

/-- C9 witness: with a one-row database oracle keyed on the limited
statement, the session succeeds on attempt 1 with that statement. -/
theorem C9_witness :
    add_limit_if_missing (clean_sql (pyStripS "SELECT * FROM orders")) 100 =
      "SELECT * FROM orders LIMIT 100;" ∧
    @queryLoop Unit "show all orders" (Except.ok "SELECT * FROM orders")
        (fun _ => Except.ok ([()], ["order_id"])) 3 100 3 1 none none =
      QueryResult.success "SELECT * FROM orders LIMIT 100;" [()] ["order_id"] 1 1 := by
  have h := C9_default_limit_applied Unit "show all orders"
    (fun _ => Except.ok ([()], ["order_id"])) 3 2 [()] ["order_id"]
  exact ⟨h.1, h.2 rfl⟩
